import Mathlib

/-!
Shallow embedding of the OCR upload service (`src/ocr-service/app.py`).

The service is a stateless HTTP adapter in front of two external
command-line tools (an OCR engine and a PDF rasterizer).  External
processes are modelled by oracle values describing how each invocation
ends (exit code with captured output, timeout expiry, or an exception
while spawning), and the handlers are translated as pure functions of
those oracles.  Temporary-resource bookkeeping is made explicit: the
handlers thread a list of the temporary files/directories currently on
disk (a temporary directory stands for the directory together with its
contents), appending on creation and erasing on deletion, mirroring
`tempfile.NamedTemporaryFile`, `tempfile.TemporaryDirectory` scope exit
and `os.unlink`.
-/

namespace DocOcr

/-- Python string `<=` on `str`: lexicographic comparison of the two
character sequences by code point (the order used by `sorted`). -/
def pyLe : List Char → List Char → Bool
  | [], _ => true
  | _ :: _, [] => false
  | a :: as, b :: bs =>
    if a < b then true
    else if b < a then false
    else pyLe as bs

/-- The ordering `sorted` uses on Python strings, as a relation on `String`. -/
def strLe (a b : String) : Prop := pyLe a.data b.data = true

instance : DecidableRel strLe :=
  fun a b => inferInstanceAs (Decidable (pyLe a.data b.data = true))

/-- Python `f.endswith('.png')` (app.py line 50): the last four
characters of `f` are `.png`. -/
def endsWithPng (f : String) : Bool := f.data.reverse.take 4 == ['g', 'n', 'p', '.']

/-- The characters strictly after the last `'.'` of a character list,
or `none` when no `'.'` occurs: the semantics of Python
`s.rsplit('.', 1)[1]` when a dot is present. -/
def afterLastDot : List Char → Option (List Char)
  | [] => none
  | c :: cs =>
    match afterLastDot cs with
    | some r => some r
    | none => if c = '.' then some cs else none

/-- Python `'.' in filename` (app.py line 14). -/
def containsDot (s : String) : Bool := s.data.contains '.'

/-- Python `filename.rsplit('.', 1)[1]` (app.py lines 14 and 75); only
reached when the filename contains a dot. -/
def rsplitExt (filename : String) : String :=
  String.mk ((afterLastDot filename.data).getD [])

/-- Python `s.lower()`. -/
def lowerStr (s : String) : String := String.mk (s.data.map Char.toLower)

/-- app.py lines 8-10. -/
def ALLOWED_EXTENSIONS : List String :=
  ["png", "jpg", "jpeg", "tiff", "tif", "bmp", "gif", "webp", "pdf"]

/-- app.py lines 13-14:
`'.' in filename and filename.rsplit('.', 1)[1].lower() in ALLOWED_EXTENSIONS`. -/
def allowed_file (filename : String) : Bool :=
  containsDot filename && decide (lowerStr (rsplitExt filename) ∈ ALLOWED_EXTENSIONS)

/-- How one `subprocess.run` call (without `check=True`) ends:
normal completion with an exit code and captured output streams,
`TimeoutExpired`, or any other exception while invoking (for example a
missing binary), carrying its `str(e)` description. -/
inductive ProcOutcome where
  | exited (returncode : Int) (stdout stderr : String)
  | timedOut
  | raised (msg : String)
deriving DecidableEq

/-- A `subprocess.run` call site: the argument vector and the timeout
bound (in seconds) passed to it, `none` when no `timeout=` is given. -/
structure Invocation where
  argv : List String
  timeout : Option Nat
deriving DecidableEq

/-- The OCR engine call of `ocr_image` (app.py lines 20-23). -/
def tesseract_ocr_invocation (filepath : String) : Invocation :=
  { argv := ["tesseract", filepath, "stdout", "--oem", "3", "--psm", "3"]
    timeout := some 120 }

/-- The rasterizer call of `ocr_pdf` (app.py lines 40-44). -/
def pdftoppm_invocation (filepath pagePrefix : String) : Invocation :=
  { argv := ["pdftoppm", "-png", "-r", "300", filepath, pagePrefix]
    timeout := some 120 }

/-- The version probe of `health` (app.py lines 103-105): no `timeout=`
argument is passed. -/
def tesseract_version_invocation : Invocation :=
  { argv := ["tesseract", "--version"], timeout := none }

/-- app.py lines 17-31, `ocr_image`: run Tesseract on an image file,
given the outcome of the subprocess invocation. -/
def ocr_image (run : ProcOutcome) : String :=
  match run with
  | .exited returncode stdout stderr =>
      if returncode = 0 then stdout.trim
      else "[OCR Error] " ++ stderr.trim
  | .timedOut => "[OCR Error] Processing timed out"
  | .raised e => "[OCR Error] " ++ e

/-- How the rasterizer call of `ocr_pdf` (with `check=True`) ends:
exit status zero; `CalledProcessError` (non-zero exit, caught, carrying
`str(e)`); `TimeoutExpired` (caught, carrying `str(e)`); or any other
exception (for example a missing `pdftoppm` binary), which the
`except` clause on app.py line 45 does not catch and which therefore
propagates out of `ocr_pdf`. -/
inductive RasterOutcome where
  | exitedZero
  | exitedNonZero (msg : String)
  | timedOut (msg : String)
  | otherRaise (msg : String)
deriving DecidableEq

/-- Result of a call that either returns a value or lets an exception
escape to the caller. -/
inductive ExtractOutcome where
  | value (text : String)
  | raised (msg : String)
deriving DecidableEq

/-- The oracle for one `ocr_pdf` run: the name of the temporary
directory it creates, how the rasterizer invocation ends, the list
`os.listdir(tmpdir)` returns (in arbitrary filesystem order), and how
the OCR invocation on each page image ends. -/
structure PdfEnv where
  tmpdir : String
  raster : RasterOutcome
  listing : List String
  pageOcr : String → ProcOutcome

/-- app.py lines 49-51: `sorted([f for f in os.listdir(tmpdir) if
f.endswith('.png')])`.  Python `sorted` is modelled by insertion sort
under `strLe`, the code-point lexicographic order `sorted` uses. -/
def page_images (listing : List String) : List String :=
  List.insertionSort strLe (listing.filter (fun f => endsWithPng f))

/-- app.py lines 53-56: the loop `for i, img_name in
enumerate(page_images, 1)` appending `f"--- Page {i} ---\n{page_text}"`
for each page, with `n` the index of the first remaining image. -/
def pageBlocks (pageOcr : String → ProcOutcome) : Nat → List String → List String
  | _, [] => []
  | n, img :: rest =>
      ("--- Page " ++ toString n ++ " ---\n" ++ ocr_image (pageOcr img))
        :: pageBlocks pageOcr (n + 1) rest

/-- app.py lines 34-58, `ocr_pdf`: convert PDF pages to images inside a
fresh temporary directory, then OCR each page.  `res` is the list of
temporary resources alive on entry; the returned list is the state on
exit.  The `with tempfile.TemporaryDirectory()` block removes the
directory (with the page images inside it) on every exit path,
including the early `return` on rasterization failure and a
propagating exception. -/
def ocr_pdf (env : PdfEnv) (res : List String) : ExtractOutcome × List String :=
  let res1 := env.tmpdir :: res
  match env.raster with
  | .exitedNonZero msg =>
      (.value ("[PDF Error] Could not convert PDF: " ++ msg), res1.erase env.tmpdir)
  | .timedOut msg =>
      (.value ("[PDF Error] Could not convert PDF: " ++ msg), res1.erase env.tmpdir)
  | .otherRaise msg => (.raised msg, res1.erase env.tmpdir)
  | .exitedZero =>
      let text_parts := pageBlocks env.pageOcr 1 (page_images env.listing)
      (.value (if text_parts = [] then "[No text extracted from PDF]"
               else String.intercalate "\n\n" text_parts),
       res1.erase env.tmpdir)

/-- A response of the `/ocr` route: one of the three `jsonify` shapes
of app.py lines 64-93. -/
inductive HttpResponse where
  | badRequest (error : String)
  | serverError (error : String)
  | okJson (text filename : String) (characters : Nat) (success : Bool)
deriving DecidableEq

/-- The HTTP status code attached to each response shape. -/
def HttpResponse.statusCode : HttpResponse → Nat
  | .badRequest _ => 400
  | .serverError _ => 500
  | .okJson _ _ _ _ => 200

/-- The oracle for one `/ocr` request: whether a `file` field is
present, the declared filename, the name `tempfile.NamedTemporaryFile`
picks, and the subprocess oracles for the PDF path and the single-image
path. -/
structure OcrEnv where
  hasFileField : Bool
  filename : String
  tmpName : String
  pdf : PdfEnv
  image : ProcOutcome

/-- app.py lines 80-95: the `try`/`except`/`finally` around extraction.
A returned text becomes the 200 JSON body of lines 86-91 (with
`characters` set to `len(text)` and `success` set to `True`); a
propagating exception becomes the 500 response of line 93; in both
cases the `finally` of lines 94-95 unlinks the temporary file. -/
def respond (filename tmpName : String) :
    ExtractOutcome × List String → HttpResponse × List String
  | (.value text, res1) =>
      (.okJson text filename text.length true, res1.erase tmpName)
  | (.raised msg, res1) => (.serverError msg, res1.erase tmpName)

/-- app.py lines 61-95, `process_ocr`: validate the upload, save it to
a temporary file (app.py lines 74-78, modelled by starting the resource
list at `[env.tmpName]`), dispatch on the lowercased extension, and
build the response with `respond`.  Returns the response together with
the temporary resources still on disk when the handler returns. -/
def process_ocr (env : OcrEnv) : HttpResponse × List String :=
  if env.hasFileField = false then (.badRequest "No file provided", [])
  else if env.filename = "" then (.badRequest "Empty filename", [])
  else if allowed_file env.filename = false then
    (.badRequest ("Unsupported file type: " ++ env.filename), [])
  else
    respond env.filename env.tmpName
      (if lowerStr (rsplitExt env.filename) = "pdf" then ocr_pdf env.pdf [env.tmpName]
       else (ExtractOutcome.value (ocr_image env.image), [env.tmpName]))

/-- How the `subprocess.run(['tesseract', '--version'], ...)` call of
`health` ends: normal completion (any exit status) with captured
standard output, or an exception while invoking. -/
inductive VersionOutcome where
  | completed (stdout : String)
  | raised (msg : String)
deriving DecidableEq

/-- The JSON body of the `/health` response. -/
structure HealthBody where
  status : String
  tesseract : String
deriving DecidableEq

/-- app.py lines 98-113, `health`: probe `tesseract --version`; the
version is `result.stdout.split('\n')[0]` on completion and the string
`unavailable` when the invocation raises.  The route always answers
with status code 200. -/
def health (run : VersionOutcome) : Nat × HealthBody :=
  let tess_version :=
    match run with
    | .completed stdout => (stdout.splitOn "\n").getD 0 ""
    | .raised _ => "unavailable"
  (200, { status := "ok", tesseract := tess_version })

/-! ### Order-theoretic facts about the Python string comparison -/

theorem char_eq_of_not_lt {a b : Char} (h1 : ¬ a < b) (h2 : ¬ b < a) : a = b :=
  le_antisymm (not_lt.mp h2) (not_lt.mp h1)

theorem pyLe_total : ∀ as bs : List Char, pyLe as bs = true ∨ pyLe bs as = true
  | [], _ => Or.inl rfl
  | _ :: _, [] => Or.inr rfl
  | a :: as, b :: bs => by
    by_cases hab : a < b
    · exact Or.inl (by simp [pyLe, hab])
    · by_cases hba : b < a
      · exact Or.inr (by simp [pyLe, hba])
      · have hEq : a = b := char_eq_of_not_lt hab hba
        subst hEq
        rcases pyLe_total as bs with h | h
        · exact Or.inl (by simp [pyLe, h, lt_irrefl])
        · exact Or.inr (by simp [pyLe, h, lt_irrefl])

theorem pyLe_trans : ∀ as bs cs : List Char,
    pyLe as bs = true → pyLe bs cs = true → pyLe as cs = true
  | [], _, _, _, _ => rfl
  | _ :: _, [], _, h1, _ => by simp [pyLe] at h1
  | _ :: _, _ :: _, [], _, h2 => by simp [pyLe] at h2
  | a :: as, b :: bs, c :: cs, h1, h2 => by
    by_cases hab : a < b
    · by_cases hbc : b < c
      · simp [pyLe, lt_trans hab hbc]
      · by_cases hcb : c < b
        · simp [pyLe, hbc, hcb] at h2
        · have hEq : b = c := char_eq_of_not_lt hbc hcb
          subst hEq
          simp [pyLe, hab]
    · by_cases hba : b < a
      · simp [pyLe, hab, hba] at h1
      · have hEq : a = b := char_eq_of_not_lt hab hba
        subst hEq
        simp only [pyLe, lt_irrefl, if_false] at h1
        by_cases hac : a < c
        · simp [pyLe, hac]
        · by_cases hca : c < a
          · simp [pyLe, hac, hca] at h2
          · have hEq2 : a = c := char_eq_of_not_lt hac hca
            subst hEq2
            simp only [pyLe, lt_irrefl, if_false] at h2 ⊢
            exact pyLe_trans as bs cs h1 h2

theorem pyLe_antisymm : ∀ as bs : List Char,
    pyLe as bs = true → pyLe bs as = true → as = bs
  | [], [], _, _ => rfl
  | [], _ :: _, _, h2 => by simp [pyLe] at h2
  | _ :: _, [], h1, _ => by simp [pyLe] at h1
  | a :: as, b :: bs, h1, h2 => by
    by_cases hab : a < b
    · simp [pyLe, hab, lt_asymm hab] at h2
    · by_cases hba : b < a
      · simp [pyLe, hba, lt_asymm hba] at h1
      · have hEq : a = b := char_eq_of_not_lt hab hba
        subst hEq
        simp only [pyLe, lt_irrefl, if_false] at h1 h2
        rw [pyLe_antisymm as bs h1 h2]

instance : IsTotal String strLe := ⟨fun a b => pyLe_total a.data b.data⟩

instance : IsTrans String strLe := ⟨fun a b c => pyLe_trans a.data b.data c.data⟩

instance : IsAntisymm String strLe :=
  ⟨fun a b h1 h2 => congrArg String.mk (pyLe_antisymm a.data b.data h1 h2)⟩

/-! ### Structural lemmas about the embedded handlers -/

theorem pageBlocks_eq_enumFrom (pageOcr : String → ProcOutcome) :
    ∀ (n : Nat) (l : List String),
      pageBlocks pageOcr n l =
        (List.enumFrom n l).map
          (fun pr => "--- Page " ++ toString pr.1 ++ " ---\n" ++ ocr_image (pageOcr pr.2))
  | _, [] => rfl
  | n, img :: rest => by
    simp only [pageBlocks, List.enumFrom, List.map]
    exact congrArg _ (pageBlocks_eq_enumFrom pageOcr (n + 1) rest)

theorem pageBlocks_eq_nil (pageOcr : String → ProcOutcome) (n : Nat) (l : List String) :
    pageBlocks pageOcr n l = [] ↔ l = [] := by
  cases l <;> simp [pageBlocks]

theorem respond_snd (filename tmpName : String) (r : ExtractOutcome × List String) :
    (respond filename tmpName r).2 = r.2.erase tmpName := by
  rcases r with ⟨o, res1⟩
  cases o <;> rfl

theorem respond_ne_400 (filename tmpName : String) (r : ExtractOutcome × List String) :
    (respond filename tmpName r).1.statusCode ≠ 400 := by
  rcases r with ⟨o, res1⟩
  cases o <;> simp [respond, HttpResponse.statusCode]

theorem respond_okJson (filename tmpName : String) (r : ExtractOutcome × List String)
    (t f : String) (c : Nat) (s : Bool)
    (h : (respond filename tmpName r).1 = .okJson t f c s) : c = t.length ∧ s = true := by
  rcases r with ⟨o, res1⟩
  cases o with
  | value text =>
      simp only [respond, HttpResponse.okJson.injEq] at h
      obtain ⟨ht, _, hc, hs⟩ := h
      subst ht
      exact ⟨hc.symm, hs.symm⟩
  | raised msg => simp [respond] at h

theorem ocr_pdf_snd (env : PdfEnv) (res : List String) : (ocr_pdf env res).2 = res := by
  rcases env with ⟨tmpdir, raster, listing, pageOcr⟩
  cases raster <;> simp [ocr_pdf, List.erase_cons_head]

theorem statusCode_400_iff (env : OcrEnv) :
    (process_ocr env).1.statusCode = 400 ↔
      (env.hasFileField = false ∨ env.filename = "" ∨ allowed_file env.filename = false) := by
  unfold process_ocr
  by_cases h1 : env.hasFileField = false
  · rw [if_pos h1]
    exact iff_of_true rfl (Or.inl h1)
  · rw [if_neg h1]
    by_cases h2 : env.filename = ""
    · rw [if_pos h2]
      exact iff_of_true rfl (Or.inr (Or.inl h2))
    · rw [if_neg h2]
      by_cases h3 : allowed_file env.filename = false
      · rw [if_pos h3]
        exact iff_of_true rfl (Or.inr (Or.inr h3))
      · rw [if_neg h3]
        exact iff_of_false (respond_ne_400 _ _ _) (by simp [h1, h2, h3])

theorem allowed_file_false_iff (f : String) :
    allowed_file f = false ↔
      (containsDot f = false ∨ lowerStr (rsplitExt f) ∉ ALLOWED_EXTENSIONS) := by
  cases h : containsDot f <;> simp [allowed_file, h, decide_eq_false_iff_not]

/-! ### The claims -/

/-- C1: a `POST /ocr` request is answered with HTTP 400 exactly when the
`file` field is absent, or the filename is empty, or the filename
contains no `.`, or the lowercased substring after the last `.` is not
in the allowed extension set; otherwise extraction proceeds. -/
theorem C1_upload_reject_iff (env : OcrEnv) :
    (process_ocr env).1.statusCode = 400 ↔
      (env.hasFileField = false ∨ env.filename = "" ∨
       containsDot env.filename = false ∨
       lowerStr (rsplitExt env.filename) ∉ ALLOWED_EXTENSIONS) :=
  (statusCode_400_iff env).trans
    (or_congr Iff.rfl (or_congr Iff.rfl (allowed_file_false_iff env.filename)))

/-- C2: single-image extraction is a total function of the process
outcome — exit status zero yields the trimmed standard output, a
non-zero exit yields `[OCR Error] ` followed by the trimmed standard
error, a timeout yields exactly `[OCR Error] Processing timed out`, and
any other invocation failure yields `[OCR Error] ` followed by the
failure description; no outcome makes it raise. -/
theorem C2_ocr_image_never_raises :
    (∀ rc stdout stderr, rc = 0 →
      ocr_image (.exited rc stdout stderr) = stdout.trim) ∧
    (∀ rc stdout stderr, rc ≠ 0 →
      ocr_image (.exited rc stdout stderr) = "[OCR Error] " ++ stderr.trim) ∧
    ocr_image .timedOut = "[OCR Error] Processing timed out" ∧
    (∀ msg, ocr_image (.raised msg) = "[OCR Error] " ++ msg) := by
  refine ⟨fun rc o e h => ?_, fun rc o e h => ?_, rfl, fun msg => rfl⟩
  · simp [ocr_image, h]
  · simp [ocr_image, h]

theorem C2_witness :
    (1 : Int) ≠ 0 ∧
      ocr_image (.exited 1 "out" "err") = "[OCR Error] " ++ "err".trim :=
  ⟨by decide, C2_ocr_image_never_raises.2.1 1 "out" "err" (by decide)⟩

/-- C3: on every exit path of the `/ocr` handler — rejection, success,
recognition failure embedded in the text, or an exception escaping
extraction — every temporary file and temporary directory created while
handling the request has been removed by the time the handler returns:
the list of live temporary resources is empty. -/
theorem C3_temp_cleanup (env : OcrEnv) : (process_ocr env).2 = [] := by
  unfold process_ocr
  by_cases h1 : env.hasFileField = false
  · rw [if_pos h1]
  · rw [if_neg h1]
    by_cases h2 : env.filename = ""
    · rw [if_pos h2]
    · rw [if_neg h2]
      by_cases h3 : allowed_file env.filename = false
      · rw [if_pos h3]
      · rw [if_neg h3, respond_snd]
        by_cases h4 : lowerStr (rsplitExt env.filename) = "pdf"
        · rw [if_pos h4, ocr_pdf_snd]
          exact List.erase_cons_head _ _
        · rw [if_neg h4]
          exact List.erase_cons_head _ _

/-- C4: when rasterization succeeds, the page images are the produced
`.png` files sorted (a sorted permutation of the filtered listing), the
page blocks are exactly one block per image carrying the markers
`--- Page 1 ---` through `--- Page N ---` in ascending order, the
output joins those blocks, and the result is invariant under any
reordering of the filesystem listing. -/
theorem C4_page_markers (tmpdir : String) (listing : List String)
    (pageOcr : String → ProcOutcome) (res : List String) :
    List.Sorted strLe (page_images listing) ∧
    List.Perm (page_images listing) (listing.filter (fun f => endsWithPng f)) ∧
    pageBlocks pageOcr 1 (page_images listing) =
      (List.enumFrom 1 (page_images listing)).map
        (fun pr => "--- Page " ++ toString pr.1 ++ " ---\n" ++ ocr_image (pageOcr pr.2)) ∧
    (pageBlocks pageOcr 1 (page_images listing)).length =
      (listing.filter (fun f => endsWithPng f)).length ∧
    (page_images listing ≠ [] →
      (ocr_pdf ⟨tmpdir, .exitedZero, listing, pageOcr⟩ res).1 =
        .value (String.intercalate "\n\n" (pageBlocks pageOcr 1 (page_images listing)))) ∧
    (∀ listing2, List.Perm listing listing2 →
      ocr_pdf ⟨tmpdir, .exitedZero, listing, pageOcr⟩ res =
        ocr_pdf ⟨tmpdir, .exitedZero, listing2, pageOcr⟩ res) := by
  refine ⟨?_, ?_, pageBlocks_eq_enumFrom pageOcr 1 _, ?_, ?_, ?_⟩
  · unfold page_images
    exact List.sorted_insertionSort strLe _
  · unfold page_images
    exact List.perm_insertionSort strLe _
  · rw [pageBlocks_eq_enumFrom, List.length_map, List.enumFrom_length]
    unfold page_images
    exact (List.perm_insertionSort strLe _).length_eq
  · intro hne
    have hp : pageBlocks pageOcr 1 (page_images listing) ≠ [] := by
      rw [Ne, pageBlocks_eq_nil]
      exact hne
    simp [ocr_pdf, hp]
  · intro listing2 hperm
    have himg : page_images listing = page_images listing2 := by
      unfold page_images
      refine List.eq_of_perm_of_sorted ?_
        (List.sorted_insertionSort strLe _) (List.sorted_insertionSort strLe _)
      exact ((List.perm_insertionSort strLe _).trans
        (hperm.filter _)).trans (List.perm_insertionSort strLe _).symm
    simp [ocr_pdf, himg]

theorem C4_witness :
    (page_images ["page-2.png", "page-1.png"] ≠ [] ∧
      (ocr_pdf ⟨"d", .exitedZero, ["page-2.png", "page-1.png"],
          fun _ => ProcOutcome.raised "x"⟩ []).1 =
        .value (String.intercalate "\n\n"
          (pageBlocks (fun _ => ProcOutcome.raised "x") 1
            (page_images ["page-2.png", "page-1.png"])))) ∧
    ocr_pdf ⟨"d", .exitedZero, ["page-2.png", "page-1.png"],
        fun _ => ProcOutcome.raised "x"⟩ [] =
      ocr_pdf ⟨"d", .exitedZero, ["page-1.png", "page-2.png"],
        fun _ => ProcOutcome.raised "x"⟩ [] :=
  ⟨⟨by decide,
    (C4_page_markers "d" ["page-2.png", "page-1.png"]
      (fun _ => ProcOutcome.raised "x") []).2.2.2.2.1 (by decide)⟩,
   (C4_page_markers "d" ["page-2.png", "page-1.png"]
      (fun _ => ProcOutcome.raised "x") []).2.2.2.2.2
     ["page-1.png", "page-2.png"] (List.Perm.swap "page-1.png" "page-2.png" [])⟩

/-- C5: if the rasterizer exits non-zero or times out, PDF extraction
returns the single `[PDF Error]`-tagged string describing the failure,
independently of the directory listing and of the per-page OCR oracle
(so no per-page OCR processing can influence the result); the
rasterizer invocation carries the 120-second timeout bound. -/
theorem C5_raster_failure (tmpdir : String) (listing : List String)
    (pageOcr : String → ProcOutcome) (res : List String) (msg : String) :
    (ocr_pdf ⟨tmpdir, .exitedNonZero msg, listing, pageOcr⟩ res).1 =
      .value ("[PDF Error] Could not convert PDF: " ++ msg) ∧
    (ocr_pdf ⟨tmpdir, .timedOut msg, listing, pageOcr⟩ res).1 =
      .value ("[PDF Error] Could not convert PDF: " ++ msg) ∧
    (∀ filepath pagePrefix,
      (pdftoppm_invocation filepath pagePrefix).timeout = some 120) :=
  ⟨rfl, rfl, fun _ _ => rfl⟩

/-- C6: when rasterization succeeds but produces zero page images, PDF
extraction returns exactly the sentinel `[No text extracted from PDF]`;
when at least one page image is produced, the page blocks are joined
with a blank-line separator. -/
theorem C6_empty_pdf_sentinel (tmpdir : String) (listing : List String)
    (pageOcr : String → ProcOutcome) (res : List String) :
    (listing.filter (fun f => endsWithPng f) = [] →
      (ocr_pdf ⟨tmpdir, .exitedZero, listing, pageOcr⟩ res).1 =
        .value "[No text extracted from PDF]") ∧
    (listing.filter (fun f => endsWithPng f) ≠ [] →
      pageBlocks pageOcr 1 (page_images listing) ≠ [] ∧
      (ocr_pdf ⟨tmpdir, .exitedZero, listing, pageOcr⟩ res).1 =
        .value (String.intercalate "\n\n"
          (pageBlocks pageOcr 1 (page_images listing)))) := by
  constructor
  · intro h
    have hi : page_images listing = [] := by
      unfold page_images
      rw [h]
      rfl
    simp [ocr_pdf, hi, pageBlocks]
  · intro h
    have hi : page_images listing ≠ [] := by
      unfold page_images
      intro hc
      apply h
      have hperm := List.perm_insertionSort strLe
        (listing.filter (fun f => endsWithPng f))
      rw [hc] at hperm
      exact hperm.symm.eq_nil
    have hp : pageBlocks pageOcr 1 (page_images listing) ≠ [] := by
      rw [Ne, pageBlocks_eq_nil]
      exact hi
    exact ⟨hp, by simp [ocr_pdf, hp]⟩

theorem C6_witness :
    ((List.filter (fun f => endsWithPng f) ([] : List String) = []) ∧
      (ocr_pdf ⟨"d", .exitedZero, [], fun _ => ProcOutcome.raised "x"⟩ []).1 =
        .value "[No text extracted from PDF]") ∧
    (List.filter (fun f => endsWithPng f) ["a.png"] ≠ [] ∧
      (pageBlocks (fun _ => ProcOutcome.raised "x") 1 (page_images ["a.png"]) ≠ [] ∧
       (ocr_pdf ⟨"d", .exitedZero, ["a.png"], fun _ => ProcOutcome.raised "x"⟩ []).1 =
         .value (String.intercalate "\n\n"
           (pageBlocks (fun _ => ProcOutcome.raised "x") 1 (page_images ["a.png"]))))) :=
  ⟨⟨rfl, (C6_empty_pdf_sentinel "d" [] (fun _ => ProcOutcome.raised "x") []).1 rfl⟩,
   ⟨by decide,
    (C6_empty_pdf_sentinel "d" ["a.png"] (fun _ => ProcOutcome.raised "x") []).2 (by decide)⟩⟩

/-- C7: every 200 response of `POST /ocr` has its `characters` field
equal to the length of its `text` field and its `success` field equal
to `true`. -/
theorem C7_characters_eq_length (env : OcrEnv) (t f : String) (c : Nat) (s : Bool)
    (h : (process_ocr env).1 = .okJson t f c s) : c = t.length ∧ s = true := by
  unfold process_ocr at h
  by_cases h1 : env.hasFileField = false
  · rw [if_pos h1] at h
    exact absurd h (by simp)
  · rw [if_neg h1] at h
    by_cases h2 : env.filename = ""
    · rw [if_pos h2] at h
      exact absurd h (by simp)
    · rw [if_neg h2] at h
      by_cases h3 : allowed_file env.filename = false
      · rw [if_pos h3] at h
        exact absurd h (by simp)
      · rw [if_neg h3] at h
        exact respond_okJson _ _ _ _ _ _ _ h

theorem C7_witness :
    (process_ocr ⟨true, "a.png", "t",
        ⟨"d", .exitedZero, [], fun _ => ProcOutcome.raised "x"⟩,
        ProcOutcome.raised "boom"⟩).1 =
      .okJson ("[OCR Error] " ++ "boom") "a.png" ("[OCR Error] " ++ "boom").length true ∧
    ("[OCR Error] " ++ "boom").length = ("[OCR Error] " ++ "boom").length ∧
      (true : Bool) = true := by
  have h : (process_ocr ⟨true, "a.png", "t",
      ⟨"d", .exitedZero, [], fun _ => ProcOutcome.raised "x"⟩,
      ProcOutcome.raised "boom"⟩).1 =
      .okJson ("[OCR Error] " ++ "boom") "a.png" ("[OCR Error] " ++ "boom").length true := by
    decide
  exact ⟨h, C7_characters_eq_length _ _ _ _ _ h⟩

/-- C8: `GET /health` always answers with HTTP 200 and status `ok`,
whatever the outcome of the engine-version invocation (including an
engine that is not installed or not invocable). -/
theorem C8_health_always_ok (run : VersionOutcome) :
    (health run).1 = 200 ∧ (health run).2.status = "ok" := by
  cases run <;> exact ⟨rfl, rfl⟩

/-- C9: the `/health` engine-version field is the first line of the
probe's standard output when the invocation completes, and the marker
`unavailable` whenever invoking the version-reporting mode fails. -/
theorem C9_health_version_field :
    (∀ stdout, (health (.completed stdout)).2.tesseract =
      (stdout.splitOn "\n").getD 0 "") ∧
    (∀ msg, (health (.raised msg)).2.tesseract = "unavailable") :=
  ⟨fun _ => rfl, fun _ => rfl⟩

/-- C10: the health check's version probe is the only subprocess
invocation issued without a timeout bound; both OCR-engine page
invocations and the rasterizer invocation carry 120-second timeouts. -/
theorem C10_health_no_timeout :
    tesseract_version_invocation.timeout = none ∧
    (∀ filepath, (tesseract_ocr_invocation filepath).timeout = some 120) ∧
    (∀ filepath pagePrefix,
      (pdftoppm_invocation filepath pagePrefix).timeout = some 120) :=
  ⟨rfl, fun _ => rfl, fun _ _ => rfl⟩

end DocOcr
